import Mathlib

/-!
# Verification of the doctor-holiday tracking dashboard (`src/main.py`)

Shallow embedding of the data model and the operations of `main.py`:
the tracking store (a Python dict keyed by `"{rpps}_{week}"`, modelled as an
insertion-ordered association list), the dashboard aggregations, the roster
filter, the fetch/refresh logic and the CSV export.  Numeric ids and week
labels are modelled by the strings Python produces for them (the code itself
stringifies them with `str(...)` / f-strings before use).
-/

set_option autoImplicit false

namespace DoctorHoliday

/-- One persisted tracking record, the value stored under a composite key in
`tracking_data` (`main.py` lines 199-205 create it; `replacement_by` is the
optional free-text field added at line 224). -/
structure TrackRecord where
  date : String
  name : String
  contract_type : String
  csm : String
  week : String
  replacement_by : Option String := none
  deriving DecidableEq

/-- One row of the fetched CSV dataset (`numero_rpps, medecin, week,
type_contract, csm, planified_hours, contractual_hours`).  `medecin` is an
`Option` because pandas rows may have a missing name (the filter uses
`na=False`).  `numero_rpps` is the stringified id (`str(row['numero_rpps'])`). -/
structure StaffRow where
  numero_rpps : String
  medecin : Option String
  week : String
  type_contract : String
  csm : String
  planified_hours : Int
  contractual_hours : Int
  deriving DecidableEq

/-- The in-memory tracking store: a Python dict modelled as an association
list in insertion order (Python dicts preserve insertion order). -/
abbrev Store := List (String × TrackRecord)

/-- `uid in tracking_data` for a Python dict. -/
def dictContains (s : Store) (k : String) : Bool :=
  s.any (fun p => p.1 == k)

/-- `tracking_data[uid] = value` for a Python dict: an existing key keeps its
position and gets the new value, a new key is appended at the end. -/
def dictInsert (s : Store) (k : String) (v : TrackRecord) : Store :=
  if dictContains s k then
    s.map (fun p => if p.1 == k then (k, v) else p)
  else
    s ++ [(k, v)]

/-- `del tracking_data[uid]` for a Python dict. -/
def dictErase (s : Store) (k : String) : Store :=
  s.filter (fun p => !(p.1 == k))

/-- `tracking_data[uid]['replacement_by'] = val`: in-place update of one field
of the record stored under `k` (`main.py` line 224). -/
def dictSetReplacementBy (s : Store) (k : String) (val : String) : Store :=
  s.map (fun p => if p.1 == k then (p.1, { p.2 with replacement_by := some val }) else p)

/-- The composite tracking key `unique_id = f"{rpps}_{row['week']}"`
(`main.py` line 185). -/
def makeKey (rpps week : String) : String :=
  rpps ++ "_" ++ week

/-- `save_tracking_data` (`main.py` lines 47-50) overwrites the JSON file with
the full mapping; it returns the new on-disk contents (the file is modelled by
the mapping the JSON text denotes). -/
def save_tracking_data (tracking_data : Store) : Store :=
  tracking_data

/-- The checkbox side of one rendered roster row (`main.py` lines 192-209):
state is `(tracking_data, disk)`; toggling on inserts a fresh record and saves,
toggling off deletes the key and saves, otherwise nothing changes. -/
def renderRowCheck (tracking disk : Store) (uid : String) (rec : TrackRecord)
    (isChecked : Bool) : Store × Store :=
  if isChecked && !(dictContains tracking uid) then
    let t := dictInsert tracking uid rec
    (t, save_tracking_data t)
  else if !isChecked && dictContains tracking uid then
    let t := dictErase tracking uid
    (t, save_tracking_data t)
  else
    (tracking, disk)

/-- The info side of one rendered roster row (`main.py` lines 218-225): for a
tracked row the free-text `replacement_by` value is written into the record
and the store is saved. -/
def renderRowInfo (tracking disk : Store) (uid : String) (txt : String) :
    Store × Store :=
  if dictContains tracking uid then
    let t := dictSetReplacementBy tracking uid txt
    (t, save_tracking_data t)
  else
    (tracking, disk)

/-- A concrete tracking record used by the closed witnesses below. -/
def exRec : TrackRecord :=
  { date := "2026-01-01", name := "Dr A", contract_type := "CDI",
    csm := "North", week := "W1", replacement_by := none }

lemma dictContains_eq_false_iff (s : Store) (k : String) :
    dictContains s k = false ↔ ∀ p ∈ s, p.1 ≠ k := by
  simp [dictContains, List.any_eq_true]

lemma dictErase_of_not_contains (s : Store) (k : String)
    (h : dictContains s k = false) : dictErase s k = s := by
  rw [dictErase, List.filter_eq_self]
  intro p hp
  have := (dictContains_eq_false_iff s k).mp h p hp
  simpa using this

lemma dictContains_append_self (s : Store) (k : String) (v : TrackRecord) :
    dictContains (s ++ [(k, v)]) k = true := by
  simp [dictContains, List.any_append]

/-- **C1.** Toggling a staff member on (key not yet tracked) inserts the key,
and toggling it off again deletes it; the resulting tracking mapping is equal
to the original store — in fact exactly equal, not merely up to key order. -/
theorem toggle_on_then_off_restores_store (s d : Store) (rpps week : String)
    (rec : TrackRecord) (h : dictContains s (makeKey rpps week) = false) :
    (renderRowCheck (renderRowCheck s d (makeKey rpps week) rec true).1
        (renderRowCheck s d (makeKey rpps week) rec true).2
        (makeKey rpps week) rec false).1 = s := by
  have h1 : renderRowCheck s d (makeKey rpps week) rec true
      = (s ++ [(makeKey rpps week, rec)], s ++ [(makeKey rpps week, rec)]) := by
    simp [renderRowCheck, h, dictInsert, save_tracking_data]
  rw [h1]
  have h2 : dictContains (s ++ [(makeKey rpps week, rec)]) (makeKey rpps week) = true :=
    dictContains_append_self s _ rec
  have h3 : (renderRowCheck (s ++ [(makeKey rpps week, rec)])
      (s ++ [(makeKey rpps week, rec)]) (makeKey rpps week) rec false).1
      = dictErase (s ++ [(makeKey rpps week, rec)]) (makeKey rpps week) := by
    simp [renderRowCheck, h2, save_tracking_data]
  rw [h3]
  have h4 : dictErase (s ++ [(makeKey rpps week, rec)]) (makeKey rpps week)
      = dictErase s (makeKey rpps week)
        ++ dictErase [(makeKey rpps week, rec)] (makeKey rpps week) := by
    simp [dictErase, List.filter_append]
  rw [h4, dictErase_of_not_contains s _ h]
  simp [dictErase]

/-- Witness for C1: on the empty store, toggling `"7_W1"` on then off yields
the empty store again. -/
theorem toggle_on_then_off_restores_store_witness :
    (renderRowCheck (renderRowCheck [] [] (makeKey "7" "W1") exRec true).1
        (renderRowCheck [] [] (makeKey "7" "W1") exRec true).2
        (makeKey "7" "W1") exRec false).1 = [] :=
  toggle_on_then_off_restores_store [] [] "7" "W1" exRec (by decide)

/-! ## Tracking-file load (C3) -/

/-- The tracking JSON file as seen by `load_tracking_data_from_file`: either
absent (`open` raises `FileNotFoundError`) or present, in which case its raw
text is abstracted by the outcome of `json.load` on it (`none` models a
malformed file whose `JSONDecodeError` would propagate uncaught). -/
inductive FileState where
  | absent
  | present (parsed : Option Store)
  deriving DecidableEq

/-- `load_tracking_data_from_file` (`main.py` lines 52-58): returns the parsed
JSON mapping; `FileNotFoundError` is caught and turned into the empty mapping;
any parse failure propagates as an exception. -/
def load_tracking_data_from_file : FileState → Except String Store
  | FileState.absent => Except.ok []
  | FileState.present none => Except.error "JSONDecodeError"
  | FileState.present (some t) => Except.ok t

/-- **C3.** Loading the tracking store when the JSON file does not exist
returns the empty mapping and never surfaces the absence as a failure. -/
theorem load_tracking_missing_file_yields_empty :
    load_tracking_data_from_file FileState.absent = Except.ok [] := rfl

/-! ## Replacement-percentage metric (C2) -/

/-- Round-half-to-even on rationals, Python's `round` tie-breaking rule. -/
def roundHalfEven (q : ℚ) : ℤ :=
  if q - ⌊q⌋ < 1 / 2 then ⌊q⌋
  else if (1 : ℚ) / 2 < q - ⌊q⌋ then ⌊q⌋ + 1
  else if ⌊q⌋ % 2 = 0 then ⌊q⌋ else ⌊q⌋ + 1

/-- Python's `round(q, 1)`: round to one decimal place, ties to even. -/
def pyRound1 (q : ℚ) : ℚ :=
  (roundHalfEven (10 * q) : ℚ) / 10

/-- The dashboard metric (`main.py` line 122):
`round((len(tracking_data) / len(df) * 100), 1) if len(df) > 0 else 0`. -/
def replacementPercentage (df : List StaffRow) (tracking_data : Store) : ℚ :=
  if 0 < df.length then
    pyRound1 ((tracking_data.length : ℚ) / (df.length : ℚ) * 100)
  else 0

/-- The metric as the spec words it: `round(100 * tracked / total, 1)`, and
`0` when the total is `0` (no division by a zero denominator). -/
def replacementPercentageSpec (trackedCount totalCount : ℕ) : ℚ :=
  if totalCount = 0 then 0
  else pyRound1 (100 * (trackedCount : ℚ) / (totalCount : ℚ))

/-- **C2.** The replacement-percentage metric computed by the dashboard equals
`round(100 * tracked_count / total_count, 1)` with `tracked_count` the number
of tracking records and `total_count` the number of dataset rows, and equals
`0` when `total_count = 0`. -/
theorem replacement_percentage_matches_spec (df : List StaffRow) (t : Store) :
    replacementPercentage df t = replacementPercentageSpec t.length df.length := by
  unfold replacementPercentage replacementPercentageSpec
  rcases Nat.eq_zero_or_pos df.length with h | h
  · simp [h]
  · rw [if_pos h, if_neg (Nat.pos_iff_ne_zero.mp h)]
    congr 1
    ring

/-! ## Flush-to-disk on every mutation (C7) -/

/-- **C7.** Each of the three mutating operations — record creation on
toggle-on, record deletion on toggle-off, and the `replacement_by` text
update — immediately rewrites the file, so after each of them the persisted
store equals the in-memory mapping. -/
theorem every_mutation_flushes_store_to_disk (tracking disk : Store)
    (uid : String) (rec : TrackRecord) (checked : Bool) (txt : String) :
    (checked = true → dictContains tracking uid = false →
      (renderRowCheck tracking disk uid rec checked).2
        = (renderRowCheck tracking disk uid rec checked).1) ∧
    (checked = false → dictContains tracking uid = true →
      (renderRowCheck tracking disk uid rec checked).2
        = (renderRowCheck tracking disk uid rec checked).1) ∧
    (dictContains tracking uid = true →
      (renderRowInfo tracking disk uid txt).2
        = (renderRowInfo tracking disk uid txt).1) := by
  refine ⟨?_, ?_, ?_⟩
  · intro hc h
    subst hc
    simp [renderRowCheck, h, save_tracking_data]
  · intro hc h
    subst hc
    simp [renderRowCheck, h, save_tracking_data]
  · intro h
    simp [renderRowInfo, h, save_tracking_data]

/-- Witness for C7: the three mutation shapes on concrete stores all leave the
disk equal to the new mapping. -/
theorem every_mutation_flushes_store_to_disk_witness :
    ((renderRowCheck [] [] "7_W1" exRec true).2
      = (renderRowCheck [] [] "7_W1" exRec true).1) ∧
    ((renderRowCheck [("7_W1", exRec)] [] "7_W1" exRec false).2
      = (renderRowCheck [("7_W1", exRec)] [] "7_W1" exRec false).1) ∧
    ((renderRowInfo [("7_W1", exRec)] [] "7_W1" "Dr B").2
      = (renderRowInfo [("7_W1", exRec)] [] "7_W1" "Dr B").1) :=
  ⟨(every_mutation_flushes_store_to_disk [] [] "7_W1" exRec true "").1 rfl (by decide),
   (every_mutation_flushes_store_to_disk [("7_W1", exRec)] [] "7_W1" exRec false "").2.1
      rfl (by decide),
   (every_mutation_flushes_store_to_disk [("7_W1", exRec)] [] "7_W1" exRec true "Dr B").2.2
      (by decide)⟩

/-! ## Replaced-per-week aggregation (C4, C10) -/

/-- Python's `str.split(sep)` on the character list of a string: every
occurrence of `sep` starts a new (possibly empty) chunk; the empty string
splits to `[""]`. -/
def splitChars (sep : Char) : List Char → List (List Char)
  | [] => [[]]
  | c :: t =>
    let rest := splitChars sep t
    if c == sep then [] :: rest
    else
      match rest with
      | [] => [[c]]
      | h :: t2 => (c :: h) :: t2

/-- `item.split('_')` (`main.py` line 90). -/
def pySplitUnderscore (s : String) : List String :=
  (splitChars '_' s.data).map String.mk

/-- The `len(rpps_week) == 2` check of `main.py` lines 93-98: a key whose
split yields exactly two parts becomes an `(rpps, week)` pair, any other key
is dropped. -/
def splitTwo (k : String) : Option (String × String) :=
  match pySplitUnderscore k with
  | [r, w] => some (r, w)
  | _ => none

/-- `replaced_data` (`main.py` lines 90-98): the `(rpps, week)` pairs parsed
from the tracking keys, keys of the wrong shape silently excluded. -/
def replacedData (tracking_data : Store) : List (String × String) :=
  (tracking_data.map (fun p => p.1)).filterMap splitTwo

/-- pandas `unique`: first occurrence of each value, in encounter order. -/
def uniqueList (l : List String) : List String :=
  l.foldl (fun acc x => if acc.contains x then acc else acc ++ [x]) []

/-- `holiday_per_week['week'].unique()`: the distinct weeks of the dataset. -/
def datasetWeeks (df : List StaffRow) : List String :=
  uniqueList (df.map (fun r => r.week))

/-- `replaced_df.groupby('week').size()`: one `(week, count)` row per distinct
week of the parsed pairs. -/
def groupCounts (rd : List (String × String)) : List (String × ℕ) :=
  (uniqueList (rd.map (fun p => p.2))).map
    (fun w => (w, rd.countP (fun p => p.2 == w)))

/-- The per-week value produced by
`all_weeks.merge(replaced_per_week, on='week', how='left').fillna(0)`:
the grouped count when the week occurs, else `0`. -/
def weekCount (rd : List (String × String)) (w : String) : ℕ :=
  ((groupCounts rd).lookup w).getD 0

/-- `replaced_per_week` (`main.py` lines 100-110): when no key parses, every
dataset week is paired with `0`; otherwise each dataset week is paired with
its merged (`fillna(0)`) group count. -/
def replacedPerWeek (df : List StaffRow) (tracking_data : Store) :
    List (String × ℕ) :=
  if (replacedData tracking_data).isEmpty then
    (datasetWeeks df).map (fun w => (w, 0))
  else
    (datasetWeeks df).map (fun w => (w, weekCount (replacedData tracking_data) w))

/-- A key contributes to week `w` exactly when it splits into two parts whose
second component is `w`. -/
def keyWeekIs (w k : String) : Bool :=
  match splitTwo k with
  | some p => p.2 == w
  | none => false

lemma uniqueList_go_mem (l : List String) :
    ∀ (acc : List String) (x : String),
      (x ∈ l.foldl (fun acc y => if acc.contains y then acc else acc ++ [y]) acc
        ↔ x ∈ acc ∨ x ∈ l) := by
  induction l with
  | nil => intro acc x; simp
  | cons a t ih =>
    intro acc x
    rw [List.foldl_cons, ih]
    by_cases h : acc.contains a
    · have ha : a ∈ acc := by simpa using h
      rw [if_pos h]
      constructor
      · rintro (hx | hx)
        · exact Or.inl hx
        · exact Or.inr (List.mem_cons_of_mem a hx)
      · rintro (hx | hx)
        · exact Or.inl hx
        · rcases List.mem_cons.mp hx with rfl | hx
          · exact Or.inl ha
          · exact Or.inr hx
    · rw [if_neg h]
      simp [List.mem_append, List.mem_cons, or_assoc]

lemma uniqueList_mem (l : List String) (x : String) :
    x ∈ uniqueList l ↔ x ∈ l := by
  have h := uniqueList_go_mem l [] x
  simpa [uniqueList] using h

lemma lookup_map_self {β : Type} (f : String → β) :
    ∀ (l : List String) (w : String), w ∈ l →
      (l.map (fun x => (x, f x))).lookup w = some (f w) := by
  intro l
  induction l with
  | nil => intro w hw; simp at hw
  | cons a t ih =>
    intro w hw
    by_cases h : w = a
    · subst h
      simp [List.lookup]
    · have hb : (w == a) = false := beq_eq_false_iff_ne.mpr h
      have hmem : w ∈ t := by
        rcases List.mem_cons.mp hw with rfl | hmem
        · exact absurd rfl h
        · exact hmem
      simp only [List.map_cons, List.lookup, hb]
      exact ih w hmem

lemma lookup_map_none {β : Type} (f : String → β) :
    ∀ (l : List String) (w : String), w ∉ l →
      (l.map (fun x => (x, f x))).lookup w = none := by
  intro l
  induction l with
  | nil => intro w _; rfl
  | cons a t ih =>
    intro w hw
    have h : w ≠ a := fun hc => hw (hc ▸ List.mem_cons_self a t)
    have hb : (w == a) = false := beq_eq_false_iff_ne.mpr h
    simp only [List.map_cons, List.lookup, hb]
    exact ih w (fun hc => hw (List.mem_cons_of_mem a hc))

lemma weekCount_eq_countP (rd : List (String × String)) (w : String) :
    weekCount rd w = rd.countP (fun p => p.2 == w) := by
  unfold weekCount groupCounts
  by_cases h : w ∈ rd.map (fun p => p.2)
  · rw [lookup_map_self _ _ _ ((uniqueList_mem _ _).mpr h)]
    rfl
  · have h1 : w ∉ uniqueList (rd.map fun p => p.2) :=
      fun hc => h ((uniqueList_mem _ _).mp hc)
    rw [lookup_map_none _ _ _ h1]
    have h2 : rd.countP (fun p => p.2 == w) = 0 := by
      rw [List.countP_eq_zero]
      intro p hp hb
      exact h (List.mem_map.mpr ⟨p, hp, eq_of_beq hb⟩)
    rw [h2]
    rfl

lemma countP_week_filterMap (w : String) :
    ∀ ks : List String,
      ((ks.filterMap splitTwo).countP fun p => p.2 == w)
        = ks.countP (keyWeekIs w) := by
  intro ks
  induction ks with
  | nil => rfl
  | cons k t ih =>
    rw [List.filterMap_cons, List.countP_cons]
    cases h : splitTwo k with
    | none =>
      have hk : keyWeekIs w k = false := by simp [keyWeekIs, h]
      simp [hk, ih]
    | some p =>
      have hk : keyWeekIs w k = (p.2 == w) := by simp [keyWeekIs, h]
      rw [List.countP_cons, ih, hk]

lemma replacedData_countP (t : Store) (w : String) :
    (replacedData t).countP (fun p => p.2 == w)
      = (t.map (fun p => p.1)).countP (keyWeekIs w) := by
  unfold replacedData
  exact countP_week_filterMap w _

/-- **C4.** Every week appearing in the dataset that no parsed tracking key
points at is assigned the count `0` by the replaced-per-week aggregation,
whether the tracking store is empty or not. -/
theorem dataset_week_without_tracking_counts_zero (df : List StaffRow)
    (t : Store) (w : String) (hw : w ∈ datasetWeeks df)
    (hnone : ∀ p ∈ replacedData t, p.2 ≠ w) :
    (replacedPerWeek df t).lookup w = some 0 := by
  unfold replacedPerWeek
  have hcount : (replacedData t).countP (fun p => p.2 == w) = 0 := by
    rw [List.countP_eq_zero]
    intro p hp hb
    exact hnone p hp (eq_of_beq hb)
  by_cases h : (replacedData t).isEmpty
  · rw [if_pos h, lookup_map_self (fun _ => (0 : ℕ)) _ _ hw]
  · rw [if_neg h, lookup_map_self (fun w => weekCount (replacedData t) w) _ _ hw,
      weekCount_eq_countP, hcount]

/-- A one-row dataset used by the closed witnesses below. -/
def exDf : List StaffRow :=
  [{ numero_rpps := "1", medecin := some "Dr A", week := "W1",
     type_contract := "CDI", csm := "North",
     planified_hours := 10, contractual_hours := 12 }]

/-- Witness for C4: with one dataset row in week `W1` and a non-empty store
tracking only week `W2`, week `W1` is counted `0`. -/
theorem dataset_week_without_tracking_counts_zero_witness :
    (replacedPerWeek exDf [("9_W2", exRec)]).lookup "W1" = some 0 :=
  dataset_week_without_tracking_counts_zero exDf [("9_W2", exRec)] "W1"
    (by decide) (by decide)

/-- **C10.** A tracking key that does not split into exactly two parts on
`'_'` is silently dropped from the aggregation — concretely, with one dataset
row and the single malformed key `"badkey"` the per-week counts sum to `0`,
strictly below the tracked total `1` — while every dataset week's count is
exactly the number of keys splitting into two parts whose week component
matches it. -/
theorem malformed_keys_excluded_from_week_counts :
    (((replacedPerWeek exDf [("badkey", exRec)]).map (fun p => p.2)).sum
        < ([("badkey", exRec)] : Store).length) ∧
    ∀ (df : List StaffRow) (t : Store) (w : String), w ∈ datasetWeeks df →
      (replacedPerWeek df t).lookup w
        = some ((t.map (fun p => p.1)).countP (keyWeekIs w)) := by
  constructor
  · decide
  · intro df t w hw
    unfold replacedPerWeek
    by_cases h : (replacedData t).isEmpty
    · rw [if_pos h, lookup_map_self (fun _ => (0 : ℕ)) _ _ hw]
      have hempty : replacedData t = [] := by
        cases hrd : replacedData t with
        | nil => rfl
        | cons a l => rw [hrd] at h; simp at h
      have key : (t.map (fun p => p.1)).countP (keyWeekIs w) = 0 := by
        rw [← replacedData_countP, hempty]
        rfl
      rw [key]
    · rw [if_neg h, lookup_map_self (fun w => weekCount (replacedData t) w) _ _ hw,
        weekCount_eq_countP, replacedData_countP]

/-- Witness for C10: one well-formed key `"9_W1"` contributes exactly one to
week `W1`'s count. -/
theorem malformed_keys_excluded_from_week_counts_witness :
    (replacedPerWeek exDf [("9_W1", exRec)]).lookup "W1"
      = some ((([("9_W1", exRec)] : Store).map (fun p => p.1)).countP (keyWeekIs "W1")) :=
  malformed_keys_excluded_from_week_counts.2 exDf [("9_W1", exRec)] "W1" (by decide)

/-! ## Roster filter (C5) -/

/-- Whether `needle` occurs at the head of `hay`. -/
def charListMatchAt : List Char → List Char → Bool
  | [], _ => true
  | _ :: _, [] => false
  | a :: as, b :: bs => a == b && charListMatchAt as bs

/-- Whether `needle` occurs anywhere inside `hay` (contiguously). -/
def charListHasSub (needle : List Char) : List Char → Bool
  | [] => needle.isEmpty
  | c :: t => charListMatchAt needle (c :: t) || charListHasSub needle t

/-- Case-insensitive substring test, modelling
`str.contains(search_term, case=False)` for a plain (non-regex) term:
both sides are lowercased and the term is searched for as a substring. -/
def strContainsCI (s term : String) : Bool :=
  charListHasSub (term.data.map Char.toLower) (s.data.map Char.toLower)

/-- The name predicate of `main.py` line 176:
`filtered_df['medecin'].str.contains(search_term, case=False, na=False)` —
a row with a missing name is excluded (`na=False`). -/
def nameMatches (search_term : String) (r : StaffRow) : Bool :=
  match r.medecin with
  | some n => strContainsCI n search_term
  | none => false

/-- The three-stage roster filter of `main.py` lines 174-180.  Each stage is
skipped when its Python condition is falsy: an empty search string, an empty
multiselect, or a multiselect containing the sentinel `'All'`. -/
def applyFilters (df : List StaffRow) (search_term : String)
    (contract_filter week_filter : List String) : List StaffRow :=
  let f1 := if search_term == "" then df
            else df.filter (nameMatches search_term)
  let f2 := if contract_filter.isEmpty || contract_filter.contains "All" then f1
            else f1.filter (fun r => contract_filter.contains r.csm)
  let f3 := if week_filter.isEmpty || week_filter.contains "All" then f2
            else f2.filter (fun r => week_filter.contains r.week)
  f3

/-- The claim's row predicate: name contains the term case-insensitively
(missing names excluded), org unit in the selected set, week in the selected
set, with the sentinel `'All'` disabling a set-membership dimension. -/
def rosterKeep (search_term : String) (contract_filter week_filter : List String)
    (r : StaffRow) : Bool :=
  nameMatches search_term r
    && (contract_filter.contains "All" || contract_filter.contains r.csm)
    && (week_filter.contains "All" || week_filter.contains r.week)

lemma if_skip_eq_filter {α : Type} (c : Bool) (p : α → Bool) (l : List α) :
    (if c then l else l.filter p) = l.filter (fun a => c || p a) := by
  cases c <;> simp

/-- **C5.** For an actual search term and non-empty multiselect choices, the
roster filter keeps exactly the rows satisfying the claim's conjunction; in
particular a term matching no name leaves no rows at all. -/
theorem roster_filter_characterization (df : List StaffRow) (st : String)
    (cf wf : List String) (hst : st ≠ "") (hcf : cf ≠ []) (hwf : wf ≠ []) :
    applyFilters df st cf wf = df.filter (rosterKeep st cf wf) ∧
    ((∀ r ∈ df, nameMatches st r = false) → applyFilters df st cf wf = []) := by
  have h1 : (st == "") = false := beq_eq_false_iff_ne.mpr hst
  have h2 : cf.isEmpty = false := by
    cases cf with
    | nil => exact absurd rfl hcf
    | cons a l => rfl
  have h3 : wf.isEmpty = false := by
    cases wf with
    | nil => exact absurd rfl hwf
    | cons a l => rfl
  have main : applyFilters df st cf wf = df.filter (rosterKeep st cf wf) := by
    unfold applyFilters
    simp only [if_skip_eq_filter]
    simp only [List.filter_filter]
    refine List.filter_congr ?_
    intro r _
    simp only [h1, h2, h3, Bool.false_or, rosterKeep]
    cases nameMatches st r <;>
      cases cf.contains "All" <;> cases cf.contains r.csm <;>
      cases wf.contains "All" <;> cases wf.contains r.week <;> rfl
  refine ⟨main, ?_⟩
  intro hnone
  rw [main, List.filter_eq_nil_iff]
  intro r hr
  simp [rosterKeep, hnone r hr]

/-- Witness for C5: the term `"zzz"` matches no name in the one-row dataset,
so the filtered roster is empty. -/
theorem roster_filter_characterization_witness :
    applyFilters exDf "zzz" ["All"] ["All"] = [] :=
  (roster_filter_characterization exDf "zzz" ["All"] ["All"]
    (by decide) (by decide) (by decide)).2 (by decide)

/-! ## Data fetch and refresh (C6) -/

/-- Outcome of `pd.read_csv` on a decoded response body. -/
inductive CsvOutcome where
  | parsed (rows : List StaffRow)
  | failed (msg : String)
  deriving DecidableEq

/-- One HTTP response as `fetch_data_from_url` sees it: `reqError` is a
`requests.exceptions.RequestException` from `get`/`raise_for_status`;
`utf8Csv = none` models a `UnicodeDecodeError` from `decode('utf-8')`, in
which case the latin-1 decode (which never fails) is parsed instead. -/
structure HttpResp where
  reqError : Option String
  utf8Csv : Option CsvOutcome
  latin1Csv : CsvOutcome
  deriving DecidableEq

/-- `fetch_data_from_url` (`main.py` lines 23-36): a request error is caught,
shown via `st.error` (the second component) and turned into `None`; a
unicode-decode failure falls back to latin-1; a CSV parse failure is not
caught and propagates (`Except.error`). -/
def fetch_data_from_url (r : HttpResp) :
    Except String (Option (List StaffRow) × Option String) :=
  match r.reqError with
  | some m => Except.ok (none, some ("Error fetching data: " ++ m))
  | none =>
    match r.utf8Csv with
    | some (CsvOutcome.parsed rows) => Except.ok (some rows, none)
    | some (CsvOutcome.failed m) => Except.error m
    | none =>
      match r.latin1Csv with
      | CsvOutcome.parsed rows => Except.ok (some rows, none)
      | CsvOutcome.failed m => Except.error m

/-- `st.session_state.data` after the top of `main` (`main.py` lines 72-78):
a pressed refresh button overwrites the session value with a fresh fetch; a
missing session value is populated by a fetch; otherwise the stored value is
used.  `prev = none` models a session without a `data` key. -/
def dataAfterRender (r : HttpResp) (pressed : Bool)
    (prev : Option (Option (List StaffRow))) :
    Except String (Option (List StaffRow)) :=
  match (if pressed then
          match fetch_data_from_url r with
          | Except.error e => Except.error e
          | Except.ok (d, _) => Except.ok (some d)
        else Except.ok prev : Except String (Option (Option (List StaffRow)))) with
  | Except.error e => Except.error e
  | Except.ok (some d) => Except.ok d
  | Except.ok none =>
    match fetch_data_from_url r with
    | Except.error e => Except.error e
    | Except.ok (d, _) => Except.ok d

/-- **C6.** A failed HTTP fetch is caught and reported as a non-fatal
message (`Except.ok`, with an error text for the user, never `Except.error`);
afterwards the dataset reference is unset (`none`) — in particular a failed
refresh never installs a new dataset — and when no refresh was requested a
previously stored value is retained. -/
theorem fetch_failure_caught_and_dataset_unset (r : HttpResp) (pressed : Bool)
    (prev : Option (Option (List StaffRow))) (m : String)
    (h : r.reqError = some m) :
    fetch_data_from_url r = Except.ok (none, some ("Error fetching data: " ++ m)) ∧
    (pressed = true → dataAfterRender r pressed prev = Except.ok none) ∧
    (pressed = false → ∀ d, prev = some d →
      dataAfterRender r pressed prev = Except.ok d) ∧
    (pressed = false → prev = none →
      dataAfterRender r pressed prev = Except.ok none) := by
  have hf : fetch_data_from_url r
      = Except.ok (none, some ("Error fetching data: " ++ m)) := by
    unfold fetch_data_from_url
    rw [h]
  refine ⟨hf, ?_, ?_, ?_⟩
  · intro hp
    subst hp
    simp [dataAfterRender, hf]
  · intro hp d hd
    subst hp
    subst hd
    simp [dataAfterRender]
  · intro hp hd
    subst hp
    subst hd
    simp [dataAfterRender, hf]

/-- Witness for C6: a concrete failed response under a pressed refresh leaves
the dataset reference unset. -/
theorem fetch_failure_caught_and_dataset_unset_witness :
    dataAfterRender
      { reqError := some "boom", utf8Csv := none,
        latin1Csv := CsvOutcome.parsed [] }
      true (some (some exDf)) = Except.ok none :=
  (fetch_failure_caught_and_dataset_unset
    { reqError := some "boom", utf8Csv := none,
      latin1Csv := CsvOutcome.parsed [] }
    true (some (some exDf)) "boom" rfl).2.1 rfl

/-! ## CSV export (C8, C9) -/

/-- The header pandas derives from the row dictionaries of the export
(`main.py` lines 248-258). -/
def exportColumns : List String :=
  ["RPPS", "Name", "Replacement Date", "Contract Type", "CSM", "Week"]

/-- One export row: the raw dict key goes into the `RPPS` column unchanged. -/
def exportRow (k : String) (v : TrackRecord) : List String :=
  [k, v.name, v.date, v.contract_type, v.csm, v.week]

/-- The rows of `tracking_df`, one per tracking record, in store order. -/
def exportRows (tracking_data : Store) : List (List String) :=
  tracking_data.map (fun p => exportRow p.1 p.2)

/-- `DataFrame.to_csv(index=False)`: the column names joined by commas, a
newline, then each row joined by commas with a trailing newline.  (CSV
quoting is elided: no modelled field contains a comma or quote.) -/
def toCsv (cols : List String) (rows : List (List String)) : String :=
  String.intercalate "," cols ++ "\n"
    ++ String.join (rows.map (fun row => String.intercalate "," row ++ "\n"))

/-- `pd.DataFrame([...]).to_csv(index=False)` for the export (`main.py` line
259): the columns come from the record dicts, so an empty record list yields a
frame with no columns at all — its CSV is a single bare newline. -/
def exportCsv (tracking_data : Store) : String :=
  toCsv (if tracking_data.isEmpty then [] else exportColumns)
    (exportRows tracking_data)

/-- `if total_replaced > 0:` (`main.py` line 235): the export button is only
rendered for a non-empty tracking store. -/
def exportAvailable (tracking_data : Store) : Bool :=
  decide (0 < tracking_data.length)

/-- Counterexample to C8: exporting the empty store does not produce the
header-only CSV the claim describes. -/
theorem export_empty_store_header_cex :
    ¬ (exportCsv [] = "RPPS,Name,Replacement Date,Contract Type,CSM,Week\n") := by
  decide

/-- **C8 (amended).** The export control is only offered for a non-empty
store, and the export code applied to the empty store yields a CSV that is a
single bare newline — no header row and no data rows. -/
theorem export_empty_store_amended :
    exportCsv [] = "\n" ∧ exportAvailable [] = false := by
  constructor
  · rfl
  · rfl

/-- **C9.** Every tracking record is exported with the full composite key
`"{rpps}_{week}"` in the `RPPS` field — never the bare identifier, which the
key strictly extends. -/
theorem export_rpps_is_composite_key (t : Store) (rpps week : String)
    (v : TrackRecord) (h : (makeKey rpps week, v) ∈ t) :
    exportRow (makeKey rpps week) v ∈ exportRows t ∧ makeKey rpps week ≠ rpps := by
  constructor
  · exact List.mem_map_of_mem (fun p => exportRow p.1 p.2) h
  · intro hc
    have hl := congrArg String.length hc
    have hu : ("_" : String).length = 1 := rfl
    rw [makeKey, String.length_append, String.length_append, hu] at hl
    omega

/-- Witness for C9: the single record keyed `"7_W1"` is exported with that
composite key in the `RPPS` field. -/
theorem export_rpps_is_composite_key_witness :
    exportRow (makeKey "7" "W1") exRec ∈ exportRows [(makeKey "7" "W1", exRec)] ∧
    makeKey "7" "W1" ≠ "7" :=
  export_rpps_is_composite_key [(makeKey "7" "W1", exRec)] "7" "W1" exRec
    (List.mem_cons_self _ _)

end DoctorHoliday
